import Mathlib

/-!
# Verification of the sample-size calculation core

Shallow embedding of `src/stats/sample_size.py` (class `SampleSizeCalculator`
and its four operations), with theorems settling the stated properties.

Modelling conventions:

* Python floats are modelled as exact rationals (`ℚ`); `math.ceil` is `Int.ceil`
  and Python floor division `//` is `Int.fdiv`.
* `scipy.stats.norm.ppf` (the inverse standard normal CDF) is an external
  library routine, not code of this repository.  The source binds its two
  outputs once per operation (`z_alpha = ppf(1 - alpha/2)` or `ppf(1 - alpha)`
  for the one-sided bioequivalence case, and `z_beta = ppf(power)`) and uses
  them purely arithmetically afterwards; the embedding therefore takes
  `z_alpha` and `z_beta` as explicit numeric inputs at exactly that point.
  Likewise `math.log(1 + bioequivalence_margin)` is taken as the input
  `log_margin`.
* Logging calls in the source are side effects that do not influence any
  returned value; they are omitted.
* The constructor stores `alpha`, `power`, `dropout_rate` unchecked, exactly
  as `SampleSizeCalculator.__init__` does (the source performs no input
  validation anywhere in the module).
-/

/-- Configuration state stored by `SampleSizeCalculator.__init__`
(`self.alpha`, `self.power`, `self.dropout_rate`); no validation is performed
by the source constructor.  Python defaults: `alpha=0.05`, `power=0.80`,
`dropout_rate=0.15`. -/
structure SampleSizeCalculator where
  alpha : ℚ := 1/20
  power : ℚ := 4/5
  dropout_rate : ℚ := 3/20
deriving DecidableEq, Repr

/-- The result dictionary returned by `calculate_parallel_design`. -/
structure ParallelResult where
  design : String
  n_per_group : ℤ
  total_n : ℤ
  adjusted_n_per_group : ℤ
  adjusted_total_n : ℤ
  effect_size : ℚ
  cohens_d : ℚ
  alpha : ℚ
  power : ℚ
  dropout_rate : ℚ
deriving DecidableEq, Repr

/-- The result dictionary returned by `calculate_crossover_design`. -/
structure CrossoverResult where
  design : String
  n_subjects : ℤ
  adjusted_n_subjects : ℤ
  effect_size : ℚ
  std_dev : ℚ
  correlation : ℚ
  alpha : ℚ
  power : ℚ
  dropout_rate : ℚ
deriving DecidableEq, Repr

/-- The result dictionary returned by `calculate_bioequivalence`; the
`n_per_group`/`adjusted_n_per_group` entries are `None` (here `none`) unless
`design == "parallel"`. -/
structure BioequivalenceResult where
  design : String
  n_subjects : ℤ
  n_per_group : Option ℤ
  adjusted_n_subjects : ℤ
  adjusted_n_per_group : Option ℤ
  cv : ℚ
  bioequivalence_margin : ℚ
  alpha : ℚ
  power : ℚ
  dropout_rate : ℚ
deriving DecidableEq, Repr

/-- `SampleSizeCalculator.calculate_parallel_design`
(src/stats/sample_size.py lines 41-108).  `z_alpha` and `z_beta` are the two
`scipy.stats.norm.ppf` values the source computes from `self.alpha` (two-sided,
`ppf(1 - alpha/2)`) and `self.power`; see the module docstring.  Python
defaults: `number_of_arms=2`, `allocation_ratio=1.0`. -/
def SampleSizeCalculator.calculate_parallel_design (c : SampleSizeCalculator)
    (z_alpha z_beta : ℚ) (effect_size std_dev : ℚ)
    (number_of_arms : ℤ := 2) (allocation_ratio : ℚ := 1) : ParallelResult :=
  let cohens_d : ℚ := effect_size / std_dev
  let n0 : ℚ := (z_alpha + z_beta) ^ 2 * 2 * std_dev ^ 2 / effect_size ^ 2
  let n1 : ℚ :=
    if allocation_ratio ≠ 1 then
      max (n0 * allocation_ratio / (1 + allocation_ratio))
        (n0 / (1 + allocation_ratio))
    else n0
  let n_per_group : ℤ := ⌈n1⌉
  let total_n : ℤ := n_per_group * number_of_arms
  let adjusted_n_per_group : ℤ := ⌈(n_per_group : ℚ) / (1 - c.dropout_rate)⌉
  let adjusted_total_n : ℤ := adjusted_n_per_group * number_of_arms
  { design := "parallel"
    n_per_group := n_per_group
    total_n := total_n
    adjusted_n_per_group := adjusted_n_per_group
    adjusted_total_n := adjusted_total_n
    effect_size := effect_size
    cohens_d := cohens_d
    alpha := c.alpha
    power := c.power
    dropout_rate := c.dropout_rate }

/-- `SampleSizeCalculator.calculate_crossover_design`
(src/stats/sample_size.py lines 110-165).  Python default:
`correlation=0.5`. -/
def SampleSizeCalculator.calculate_crossover_design (c : SampleSizeCalculator)
    (z_alpha z_beta : ℚ) (effect_size std_dev : ℚ)
    (correlation : ℚ := 1/2) : CrossoverResult :=
  let n0 : ℚ :=
    (z_alpha + z_beta) ^ 2 * 2 * std_dev ^ 2 * (1 - correlation) / effect_size ^ 2
  let n : ℤ := ⌈n0⌉
  let adjusted_n : ℤ := ⌈(n : ℚ) / (1 - c.dropout_rate)⌉
  { design := "crossover"
    n_subjects := n
    adjusted_n_subjects := adjusted_n
    effect_size := effect_size
    std_dev := std_dev
    correlation := correlation
    alpha := c.alpha
    power := c.power
    dropout_rate := c.dropout_rate }

/-- The local variable `n` of `calculate_bioequivalence` after `n = math.ceil(n)`
(src/stats/sample_size.py lines 186-200): the crossover formula when
`design == "crossover"`, otherwise the parallel formula (the source `else`
branch catches every other tag). -/
def bioequivalence_n (z_alpha z_beta log_margin cv : ℚ) (design : String) : ℤ :=
  ⌈if design = "crossover" then
      (z_alpha + z_beta) ^ 2 * 2 * cv ^ 2 / log_margin ^ 2
    else
      (z_alpha + z_beta) ^ 2 * 4 * cv ^ 2 / log_margin ^ 2⌉

/-- The local variable `adjusted_n` of `calculate_bioequivalence`
(src/stats/sample_size.py line 201): `math.ceil(n / (1 - self.dropout_rate))`
applied to the already-ceiled `n`. -/
def SampleSizeCalculator.bioequivalence_adjusted_n (c : SampleSizeCalculator)
    (z_alpha z_beta log_margin cv : ℚ) (design : String) : ℤ :=
  ⌈(bioequivalence_n z_alpha z_beta log_margin cv design : ℚ)
    / (1 - c.dropout_rate)⌉

/-- `SampleSizeCalculator.calculate_bioequivalence`
(src/stats/sample_size.py lines 167-218).  Here `z_alpha` is the one-sided
value `ppf(1 - alpha)` the source uses for TOST, and `log_margin` is the
source's `math.log(1 + bioequivalence_margin)`.  Python defaults:
`bioequivalence_margin=0.20`, `design="crossover"`. -/
def SampleSizeCalculator.calculate_bioequivalence (c : SampleSizeCalculator)
    (z_alpha z_beta log_margin cv : ℚ) (bioequivalence_margin : ℚ := 1/5)
    (design : String := "crossover") : BioequivalenceResult :=
  let n : ℤ := bioequivalence_n z_alpha z_beta log_margin cv design
  let adjusted_n : ℤ :=
    c.bioequivalence_adjusted_n z_alpha z_beta log_margin cv design
  { design := design
    n_subjects := if design = "crossover" then n else n.fdiv 2
    n_per_group := if design = "parallel" then some (n.fdiv 2) else none
    adjusted_n_subjects :=
      if design = "crossover" then adjusted_n else adjusted_n.fdiv 2
    adjusted_n_per_group :=
      if design = "parallel" then some (adjusted_n.fdiv 2) else none
    cv := cv
    bioequivalence_margin := bioequivalence_margin
    alpha := c.alpha
    power := c.power
    dropout_rate := c.dropout_rate }

/-- A sensitivity-analysis list element: `sensitivity_analysis` returns either
parallel or crossover result dictionaries. -/
inductive SSResult where
  | parallel (r : ParallelResult)
  | crossover (r : CrossoverResult)
deriving DecidableEq, Repr

/-- `SampleSizeCalculator.sensitivity_analysis`
(src/stats/sample_size.py lines 220-247): for each effect size, call
`calculate_parallel_design(effect_size, std_dev)` when `design == "parallel"`,
otherwise `calculate_crossover_design(effect_size, std_dev)` (the source
`else` branch catches every other tag), appending results in input order.
Python default: `design="parallel"`. -/
def SampleSizeCalculator.sensitivity_analysis (c : SampleSizeCalculator)
    (z_alpha z_beta : ℚ) (effect_sizes : List ℚ) (std_dev : ℚ)
    (design : String := "parallel") : List SSResult :=
  effect_sizes.map fun effect_size =>
    if design = "parallel" then
      SSResult.parallel (c.calculate_parallel_design z_alpha z_beta effect_size std_dev)
    else
      SSResult.crossover (c.calculate_crossover_design z_alpha z_beta effect_size std_dev)

/-!
## Theorems

The z-score inputs used in concrete statements are the spec's quoted values
`z(0.975) = 1.959964`, `z(0.80) = 0.841621`, one-sided `z(0.95) = 1.644854`,
and `ln(1.2) = 0.182322`; interval-hypothesis theorems cover every value in a
bracket around the true `scipy` outputs.
-/

/-- C1: the source performs no input validation at all.  With an invalid
configuration `dropout_rate = 1.5` (≥ 1), `calculate_parallel_design` does not
fail: it silently returns the nonsensical negative counts
`adjusted_n_per_group = -88` and `adjusted_total_n = -176`; and with the
invalid `effect_size = -300` it silently returns a fully built result
(`n_per_group = 44`, `adjusted_n_per_group = 52`), because the effect size is
only ever squared.  No dedicated validation or configuration error exists
anywhere in `src/stats/sample_size.py`, contradicting the claim. -/
theorem parallel_invalid_inputs_return_results :
    (({ alpha := 1/20, power := 4/5, dropout_rate := 3/2 } : SampleSizeCalculator).calculate_parallel_design
        1.959964 0.841621 300 500 2 1).adjusted_n_per_group = -88 ∧
    (({ alpha := 1/20, power := 4/5, dropout_rate := 3/2 } : SampleSizeCalculator).calculate_parallel_design
        1.959964 0.841621 300 500 2 1).adjusted_total_n = -176 ∧
    (({} : SampleSizeCalculator).calculate_parallel_design 1.959964 0.841621 (-300) 500 2 1).n_per_group = 44 ∧
    (({} : SampleSizeCalculator).calculate_parallel_design 1.959964 0.841621 (-300) 500 2 1).adjusted_n_per_group = 52 := by
  have h44 : ⌈(313955140489 / 7200000000 : ℚ)⌉ = 44 := by
    rw [Int.ceil_eq_iff]
    constructor <;> norm_num
  have hm88 : ⌈(-88 : ℚ)⌉ = -88 := by
    rw [Int.ceil_eq_iff]
    constructor <;> norm_num
  refine ⟨?_, ?_, ?_, ?_⟩ <;>
    norm_num [SampleSizeCalculator.calculate_parallel_design, h44, hm88, Int.ceil_eq_iff]

/-- C2 counterexample: the claim fails at the valid configuration
`alpha = 0.8`, `power = 0.4` (both inside `(0,1)`, `dropout_rate = 0.15`).
There `power = alpha/2`, so the source's z-scores cancel exactly:
`z_alpha = ppf(1 - 0.8/2) = ppf(0.6) = 0.2533471031357997` and
`z_beta = ppf(0.4) = -ppf(0.6)` (the float routine is odd around 0.5), giving
a raw per-group requirement of `0` and hence `n_per_group = 0 < 1`. -/
theorem parallel_n_per_group_zero_when_power_is_half_alpha :
    (({ alpha := 4/5, power := 2/5, dropout_rate := 3/20 } : SampleSizeCalculator).calculate_parallel_design
        (2533471031357997/10000000000000000) (-(2533471031357997/10000000000000000)) 300 500 2 1).n_per_group = 0 ∧
    ¬ (1 ≤ (({ alpha := 4/5, power := 2/5, dropout_rate := 3/20 } : SampleSizeCalculator).calculate_parallel_design
        (2533471031357997/10000000000000000) (-(2533471031357997/10000000000000000)) 300 500 2 1).n_per_group) := by
  constructor <;> norm_num [SampleSizeCalculator.calculate_parallel_design]

/-- C2 (amended): for every valid parallel-design input whose z-scores do not
cancel (`z_alpha + z_beta ≠ 0`, i.e. `power ≠ alpha/2`; `z_alpha > 0` always
holds for `alpha ∈ (0,1)`), the result satisfies
`adjusted_n_per_group ≥ n_per_group ≥ 1`,
`total_n = n_per_group * number_of_arms`, and
`adjusted_total_n = adjusted_n_per_group * number_of_arms` exactly. -/
theorem calculate_parallel_design_invariants (c : SampleSizeCalculator)
    (z_alpha z_beta effect_size std_dev : ℚ) (number_of_arms : ℤ) (allocation_ratio : ℚ)
    (hz : z_alpha + z_beta ≠ 0) (he : 0 < effect_size) (hs : 0 < std_dev)
    (hr : 0 < allocation_ratio) (hd0 : 0 ≤ c.dropout_rate) (hd1 : c.dropout_rate < 1) :
    1 ≤ (c.calculate_parallel_design z_alpha z_beta effect_size std_dev number_of_arms allocation_ratio).n_per_group ∧
    (c.calculate_parallel_design z_alpha z_beta effect_size std_dev number_of_arms allocation_ratio).n_per_group
      ≤ (c.calculate_parallel_design z_alpha z_beta effect_size std_dev number_of_arms allocation_ratio).adjusted_n_per_group ∧
    (c.calculate_parallel_design z_alpha z_beta effect_size std_dev number_of_arms allocation_ratio).total_n
      = (c.calculate_parallel_design z_alpha z_beta effect_size std_dev number_of_arms allocation_ratio).n_per_group * number_of_arms ∧
    (c.calculate_parallel_design z_alpha z_beta effect_size std_dev number_of_arms allocation_ratio).adjusted_total_n
      = (c.calculate_parallel_design z_alpha z_beta effect_size std_dev number_of_arms allocation_ratio).adjusted_n_per_group * number_of_arms := by
  simp only [SampleSizeCalculator.calculate_parallel_design]
  have hn0 : 0 < (z_alpha + z_beta) ^ 2 * 2 * std_dev ^ 2 / effect_size ^ 2 := by
    apply div_pos
    · have h1 : 0 < (z_alpha + z_beta) ^ 2 := sq_pos_iff.mpr hz
      positivity
    · positivity
  have hn1 : 0 < (if allocation_ratio ≠ 1 then
      max ((z_alpha + z_beta) ^ 2 * 2 * std_dev ^ 2 / effect_size ^ 2 * allocation_ratio / (1 + allocation_ratio))
        ((z_alpha + z_beta) ^ 2 * 2 * std_dev ^ 2 / effect_size ^ 2 / (1 + allocation_ratio))
    else (z_alpha + z_beta) ^ 2 * 2 * std_dev ^ 2 / effect_size ^ 2) := by
    split_ifs with h
    · exact lt_max_of_lt_right (div_pos hn0 (by linarith))
    · exact hn0
  have hceil : 1 ≤ ⌈(if allocation_ratio ≠ 1 then
      max ((z_alpha + z_beta) ^ 2 * 2 * std_dev ^ 2 / effect_size ^ 2 * allocation_ratio / (1 + allocation_ratio))
        ((z_alpha + z_beta) ^ 2 * 2 * std_dev ^ 2 / effect_size ^ 2 / (1 + allocation_ratio))
    else (z_alpha + z_beta) ^ 2 * 2 * std_dev ^ 2 / effect_size ^ 2)⌉ := Int.one_le_ceil_iff.mpr hn1
  refine ⟨hceil, ?_, trivial, trivial⟩
  set n : ℤ := ⌈(if allocation_ratio ≠ 1 then
      max ((z_alpha + z_beta) ^ 2 * 2 * std_dev ^ 2 / effect_size ^ 2 * allocation_ratio / (1 + allocation_ratio))
        ((z_alpha + z_beta) ^ 2 * 2 * std_dev ^ 2 / effect_size ^ 2 / (1 + allocation_ratio))
    else (z_alpha + z_beta) ^ 2 * 2 * std_dev ^ 2 / effect_size ^ 2)⌉ with hn
  have h2 : (n : ℚ) ≤ (n : ℚ) / (1 - c.dropout_rate) := by
    rw [le_div_iff₀ (by linarith)]
    have hn01 : (0 : ℚ) ≤ (n : ℚ) := by exact_mod_cast le_trans (by norm_num) hceil
    nlinarith
  calc n = ⌈((n : ℚ))⌉ := (Int.ceil_intCast n).symm
    _ ≤ ⌈(n : ℚ) / (1 - c.dropout_rate)⌉ := Int.ceil_le_ceil h2

/-- C2 witness: the invariants at the default configuration and the spec's
concrete scenario. -/
theorem parallel_invariants_witness :
    1 ≤ (({} : SampleSizeCalculator).calculate_parallel_design 1.959964 0.841621 300 500 2 1).n_per_group ∧
    (({} : SampleSizeCalculator).calculate_parallel_design 1.959964 0.841621 300 500 2 1).n_per_group
      ≤ (({} : SampleSizeCalculator).calculate_parallel_design 1.959964 0.841621 300 500 2 1).adjusted_n_per_group ∧
    (({} : SampleSizeCalculator).calculate_parallel_design 1.959964 0.841621 300 500 2 1).total_n
      = (({} : SampleSizeCalculator).calculate_parallel_design 1.959964 0.841621 300 500 2 1).n_per_group * 2 ∧
    (({} : SampleSizeCalculator).calculate_parallel_design 1.959964 0.841621 300 500 2 1).adjusted_total_n
      = (({} : SampleSizeCalculator).calculate_parallel_design 1.959964 0.841621 300 500 2 1).adjusted_n_per_group * 2 :=
  calculate_parallel_design_invariants {} 1.959964 0.841621 300 500 2 1
    (by norm_num) (by norm_num) (by norm_num) (by norm_num) (by norm_num) (by norm_num)

/-- C3: with the default configuration (alpha=0.05, power=0.80,
dropout_rate=0.15) and any z-scores in a bracket around the true values
`ppf(0.975) = 1.9599639845...` and `ppf(0.80) = 0.8416212335...`,
`calculate_parallel_design(effect_size=300, std_dev=500, number_of_arms=2,
allocation_ratio=1.0)` yields `n_per_group = 44`, `adjusted_n_per_group = 52`
and `adjusted_total_n = 104`. -/
theorem parallel_concrete_scenario1 (z_alpha z_beta : ℚ)
    (h1 : 1959963/1000000 ≤ z_alpha) (h2 : z_alpha ≤ 1959965/1000000)
    (h3 : 841621/1000000 ≤ z_beta) (h4 : z_beta ≤ 841622/1000000) :
    (({} : SampleSizeCalculator).calculate_parallel_design z_alpha z_beta 300 500 2 1).n_per_group = 44 ∧
    (({} : SampleSizeCalculator).calculate_parallel_design z_alpha z_beta 300 500 2 1).adjusted_n_per_group = 52 ∧
    (({} : SampleSizeCalculator).calculate_parallel_design z_alpha z_beta 300 500 2 1).adjusted_total_n = 104 := by
  have hlo : (2801584/1000000 : ℚ) ≤ z_alpha + z_beta := by linarith
  have hhi : z_alpha + z_beta ≤ 2801587/1000000 := by linarith
  have h44 : ⌈(z_alpha + z_beta) ^ 2 * 2 * (250000 : ℚ) / 90000⌉ = 44 := by
    rw [Int.ceil_eq_iff]
    constructor
    · push_cast
      nlinarith [mul_self_nonneg (z_alpha + z_beta - 2801584/1000000)]
    · push_cast
      nlinarith [mul_nonneg (sub_nonneg.mpr hhi)
        (by linarith : (0:ℚ) ≤ 2801587/1000000 + (z_alpha + z_beta))]
  have h52 : ⌈(880/17 : ℚ)⌉ = 52 := by
    rw [Int.ceil_eq_iff]
    constructor <;> norm_num
  norm_num [SampleSizeCalculator.calculate_parallel_design, h44, h52]

/-- C3 witness: the spec's quoted z values lie inside the bracket. -/
theorem parallel_scenario1_witness :
    (({} : SampleSizeCalculator).calculate_parallel_design 1.959964 0.841621 300 500 2 1).n_per_group = 44 ∧
    (({} : SampleSizeCalculator).calculate_parallel_design 1.959964 0.841621 300 500 2 1).adjusted_n_per_group = 52 ∧
    (({} : SampleSizeCalculator).calculate_parallel_design 1.959964 0.841621 300 500 2 1).adjusted_total_n = 104 :=
  parallel_concrete_scenario1 1.959964 0.841621
    (by norm_num) (by norm_num) (by norm_num) (by norm_num)

/-- C4: in every calculation the dropout-adjusted count is
`ceil(n / (1 - dropout_rate))` applied to the already-ceiled raw count `n`
(fields for parallel and crossover; the internal pre-halving pair for
bioequivalence), and with `dropout_rate = 0` the adjusted count equals the raw
count exactly. -/
theorem dropout_adjustment_law (c : SampleSizeCalculator)
    (z_alpha z_beta effect_size std_dev correlation log_margin cv : ℚ)
    (number_of_arms : ℤ) (allocation_ratio : ℚ) (design : String) :
    (c.calculate_parallel_design z_alpha z_beta effect_size std_dev number_of_arms allocation_ratio).adjusted_n_per_group
      = ⌈((c.calculate_parallel_design z_alpha z_beta effect_size std_dev number_of_arms allocation_ratio).n_per_group : ℚ)
          / (1 - c.dropout_rate)⌉ ∧
    (c.calculate_crossover_design z_alpha z_beta effect_size std_dev correlation).adjusted_n_subjects
      = ⌈((c.calculate_crossover_design z_alpha z_beta effect_size std_dev correlation).n_subjects : ℚ)
          / (1 - c.dropout_rate)⌉ ∧
    c.bioequivalence_adjusted_n z_alpha z_beta log_margin cv design
      = ⌈((bioequivalence_n z_alpha z_beta log_margin cv design : ℤ) : ℚ)
          / (1 - c.dropout_rate)⌉ ∧
    ({ c with dropout_rate := 0 }.calculate_parallel_design z_alpha z_beta effect_size std_dev number_of_arms allocation_ratio).adjusted_n_per_group
      = ({ c with dropout_rate := 0 }.calculate_parallel_design z_alpha z_beta effect_size std_dev number_of_arms allocation_ratio).n_per_group ∧
    ({ c with dropout_rate := 0 }.calculate_crossover_design z_alpha z_beta effect_size std_dev correlation).adjusted_n_subjects
      = ({ c with dropout_rate := 0 }.calculate_crossover_design z_alpha z_beta effect_size std_dev correlation).n_subjects ∧
    ({ c with dropout_rate := 0 } : SampleSizeCalculator).bioequivalence_adjusted_n z_alpha z_beta log_margin cv design
      = bioequivalence_n z_alpha z_beta log_margin cv design := by
  refine ⟨rfl, rfl, rfl, ?_, ?_, ?_⟩ <;>
    simp [SampleSizeCalculator.calculate_parallel_design,
      SampleSizeCalculator.calculate_crossover_design,
      SampleSizeCalculator.bioequivalence_adjusted_n]

/-- C5: with a design tag that is neither "crossover" nor "parallel"
(here "factorial"), `calculate_bioequivalence` does not raise any error: it
computes the parallel-branch formula and returns a fully built result tagged
"factorial" whose per-group fields are `None` and whose subject fields carry
the halved parallel values (concrete inputs: cv=0.15, margin=0.20,
one-sided z_alpha=1.644854, z_beta=0.841621, log_margin=0.182322,
default configuration).  No ValidationError exists in the module. -/
theorem bioequivalence_unknown_design_not_rejected :
    (({} : SampleSizeCalculator).calculate_bioequivalence 1.644854 0.841621 0.182322 0.15 0.2 "factorial").design = "factorial" ∧
    (({} : SampleSizeCalculator).calculate_bioequivalence 1.644854 0.841621 0.182322 0.15 0.2 "factorial").n_per_group = none ∧
    (({} : SampleSizeCalculator).calculate_bioequivalence 1.644854 0.841621 0.182322 0.15 0.2 "factorial").adjusted_n_per_group = none ∧
    (({} : SampleSizeCalculator).calculate_bioequivalence 1.644854 0.841621 0.182322 0.15 0.2 "factorial").n_subjects = 8 ∧
    (({} : SampleSizeCalculator).calculate_bioequivalence 1.644854 0.841621 0.182322 0.15 0.2 "factorial").adjusted_n_subjects = 10 := by
  have h17 : ⌈(27478035225 / 1641546256 : ℚ)⌉ = 17 := by
    rw [Int.ceil_eq_iff]
    constructor <;> norm_num
  have hne1 : ("factorial" = "crossover") = False := eq_false (by decide)
  have hne2 : ("factorial" = "parallel") = False := eq_false (by decide)
  have h20 : ⌈(20 : ℚ)⌉ = 20 := by
    rw [Int.ceil_eq_iff]
    constructor <;> norm_num
  refine ⟨rfl, ?_, ?_, ?_, ?_⟩ <;>
    norm_num [SampleSizeCalculator.calculate_bioequivalence, bioequivalence_n,
      SampleSizeCalculator.bioequivalence_adjusted_n, hne1, hne2, h17, h20] <;>
    decide

/-- C6: for fixed effect size, standard deviation and configuration, a larger
within-subject correlation (both in [0,1)) never increases the raw
`n_subjects` of `calculate_crossover_design`. -/
theorem crossover_monotone_in_correlation (c : SampleSizeCalculator)
    (z_alpha z_beta effect_size std_dev corr1 corr2 : ℚ)
    (he : 0 < effect_size) (hs : 0 < std_dev)
    (h0 : 0 ≤ corr1) (h12 : corr1 ≤ corr2) (h1 : corr2 < 1) :
    (c.calculate_crossover_design z_alpha z_beta effect_size std_dev corr2).n_subjects
      ≤ (c.calculate_crossover_design z_alpha z_beta effect_size std_dev corr1).n_subjects := by
  simp only [SampleSizeCalculator.calculate_crossover_design]
  apply Int.ceil_le_ceil
  gcongr

/-- C6 witness: correlation 0.6 versus 0.5 at the spec's crossover scenario. -/
theorem crossover_monotone_witness :
    (({} : SampleSizeCalculator).calculate_crossover_design 1.959964 0.841621 300 500 (3/5)).n_subjects
      ≤ (({} : SampleSizeCalculator).calculate_crossover_design 1.959964 0.841621 300 500 (1/2)).n_subjects :=
  crossover_monotone_in_correlation {} 1.959964 0.841621 300 500 (1/2) (3/5)
    (by norm_num) (by norm_num) (by norm_num) (by norm_num) (by norm_num)

/-- C7: a smaller effect size never yields a smaller raw required count, for
both `calculate_parallel_design` (`n_per_group`, any allocation ratio) and
`calculate_crossover_design` (`n_subjects`), all other inputs fixed. -/
theorem effect_size_antitone (c : SampleSizeCalculator)
    (z_alpha z_beta e1 e2 std_dev correlation : ℚ) (number_of_arms : ℤ) (allocation_ratio : ℚ)
    (he1 : 0 < e1) (h12 : e1 ≤ e2) (hs : 0 < std_dev) (hr : 0 < allocation_ratio)
    (hc0 : 0 ≤ correlation) (hc1 : correlation < 1) :
    (c.calculate_parallel_design z_alpha z_beta e2 std_dev number_of_arms allocation_ratio).n_per_group
      ≤ (c.calculate_parallel_design z_alpha z_beta e1 std_dev number_of_arms allocation_ratio).n_per_group ∧
    (c.calculate_crossover_design z_alpha z_beta e2 std_dev correlation).n_subjects
      ≤ (c.calculate_crossover_design z_alpha z_beta e1 std_dev correlation).n_subjects := by
  have key : (z_alpha + z_beta) ^ 2 * 2 * std_dev ^ 2 / e2 ^ 2
      ≤ (z_alpha + z_beta) ^ 2 * 2 * std_dev ^ 2 / e1 ^ 2 := by
    gcongr
  have hnum : (0:ℚ) ≤ (z_alpha + z_beta) ^ 2 * 2 * std_dev ^ 2 * (1 - correlation) :=
    mul_nonneg (by positivity) (by linarith)
  constructor
  · simp only [SampleSizeCalculator.calculate_parallel_design]
    apply Int.ceil_le_ceil
    split_ifs with h
    · exact max_le_max (by gcongr) (by gcongr)
    · exact key
  · simp only [SampleSizeCalculator.calculate_crossover_design]
    apply Int.ceil_le_ceil
    gcongr

/-- C7 witness: effect sizes 300 versus 400 at the default configuration. -/
theorem effect_size_antitone_witness :
    (({} : SampleSizeCalculator).calculate_parallel_design 1.959964 0.841621 400 500 2 1).n_per_group
      ≤ (({} : SampleSizeCalculator).calculate_parallel_design 1.959964 0.841621 300 500 2 1).n_per_group ∧
    (({} : SampleSizeCalculator).calculate_crossover_design 1.959964 0.841621 400 500 (1/2)).n_subjects
      ≤ (({} : SampleSizeCalculator).calculate_crossover_design 1.959964 0.841621 300 500 (1/2)).n_subjects :=
  effect_size_antitone {} 1.959964 0.841621 300 400 500 (1/2) 2 1
    (by norm_num) (by norm_num) (by norm_num) (by norm_num) (by norm_num) (by norm_num)

/-- C8: `sensitivity_analysis` with design "parallel" (resp. "crossover")
returns exactly the ordered list of `calculate_parallel_design`
(resp. `calculate_crossover_design`) results, one per effect size in input
order, with the other parameters at their defaults (`number_of_arms=2`,
`allocation_ratio=1`, `correlation=0.5`), and of the same length as the
input sequence. -/
theorem sensitivity_analysis_maps_inputs (c : SampleSizeCalculator)
    (z_alpha z_beta : ℚ) (effect_sizes : List ℚ) (std_dev : ℚ) :
    c.sensitivity_analysis z_alpha z_beta effect_sizes std_dev "parallel"
      = effect_sizes.map (fun e =>
          SSResult.parallel (c.calculate_parallel_design z_alpha z_beta e std_dev 2 1)) ∧
    (c.sensitivity_analysis z_alpha z_beta effect_sizes std_dev "parallel").length
      = effect_sizes.length ∧
    c.sensitivity_analysis z_alpha z_beta effect_sizes std_dev "crossover"
      = effect_sizes.map (fun e =>
          SSResult.crossover (c.calculate_crossover_design z_alpha z_beta e std_dev (1/2))) ∧
    (c.sensitivity_analysis z_alpha z_beta effect_sizes std_dev "crossover").length
      = effect_sizes.length := by
  refine ⟨?_, ?_, ?_, ?_⟩ <;>
    simp [SampleSizeCalculator.sensitivity_analysis]

/-- C9: `calculate_bioequivalence` result shape.  For design "crossover" the
per-group fields are `none` while `n_subjects`/`adjusted_n_subjects` hold the
raw and dropout-adjusted totals; for design "parallel" the subject and
per-group fields carry the same halved values
`floor(ceil(raw)/2)` and `floor(ceil(ceil(raw)/(1-dropout))/2)`. -/
theorem bioequivalence_result_fields (c : SampleSizeCalculator)
    (z_alpha z_beta log_margin cv margin : ℚ) :
    (c.calculate_bioequivalence z_alpha z_beta log_margin cv margin "crossover").n_per_group = none ∧
    (c.calculate_bioequivalence z_alpha z_beta log_margin cv margin "crossover").adjusted_n_per_group = none ∧
    (c.calculate_bioequivalence z_alpha z_beta log_margin cv margin "crossover").n_subjects
      = bioequivalence_n z_alpha z_beta log_margin cv "crossover" ∧
    (c.calculate_bioequivalence z_alpha z_beta log_margin cv margin "crossover").adjusted_n_subjects
      = c.bioequivalence_adjusted_n z_alpha z_beta log_margin cv "crossover" ∧
    (c.calculate_bioequivalence z_alpha z_beta log_margin cv margin "parallel").n_per_group
      = some ((c.calculate_bioequivalence z_alpha z_beta log_margin cv margin "parallel").n_subjects) ∧
    (c.calculate_bioequivalence z_alpha z_beta log_margin cv margin "parallel").n_subjects
      = (bioequivalence_n z_alpha z_beta log_margin cv "parallel").fdiv 2 ∧
    (c.calculate_bioequivalence z_alpha z_beta log_margin cv margin "parallel").adjusted_n_per_group
      = some ((c.calculate_bioequivalence z_alpha z_beta log_margin cv margin "parallel").adjusted_n_subjects) ∧
    (c.calculate_bioequivalence z_alpha z_beta log_margin cv margin "parallel").adjusted_n_subjects
      = (⌈((bioequivalence_n z_alpha z_beta log_margin cv "parallel" : ℤ) : ℚ)
          / (1 - c.dropout_rate)⌉).fdiv 2 := by
  refine ⟨?_, ?_, ?_, ?_, ?_, ?_, ?_, ?_⟩ <;>
    simp [SampleSizeCalculator.calculate_bioequivalence,
      SampleSizeCalculator.bioequivalence_adjusted_n]

/-- C10: `sensitivity_analysis` dispatches only on equality with "parallel":
any other design string (for example "bioequivalence") silently yields the
list of crossover results with the default correlation 0.5, never an error. -/
theorem sensitivity_analysis_nonparallel_is_crossover (c : SampleSizeCalculator)
    (z_alpha z_beta : ℚ) (effect_sizes : List ℚ) (std_dev : ℚ) (design : String)
    (h : design ≠ "parallel") :
    c.sensitivity_analysis z_alpha z_beta effect_sizes std_dev design
      = effect_sizes.map (fun e =>
          SSResult.crossover (c.calculate_crossover_design z_alpha z_beta e std_dev (1/2))) := by
  simp [SampleSizeCalculator.sensitivity_analysis, h]

/-- C10 witness: design "bioequivalence" on a one-element sweep. -/
theorem sensitivity_nonparallel_witness :
    (({} : SampleSizeCalculator).sensitivity_analysis 1.959964 0.841621 [300] 500 "bioequivalence")
      = [SSResult.crossover (({} : SampleSizeCalculator).calculate_crossover_design
          1.959964 0.841621 300 500 (1/2))] :=
  sensitivity_analysis_nonparallel_is_crossover _ _ _ _ _ _ (by decide)
